import Mathlib

/-!
Verification of the Telenet polling API client (custom_components/telenet)
against its natural-language specification.

The Python sources are shallowly embedded: pure computations become Lean
functions, JSON-ish dynamic values become the inductive type `PyVal`,
Python exceptions become `Except PyErr`, and the HTTP layer is modelled by
passing the list of responses the server would return to the successive
requests of one call ("response trace").  Machine floats in the usage
formulas only ever hold exact decimal arithmetic on the inputs of the
claims, and are modelled by `ℚ`.
-/

namespace Telenet

/-! ## Dynamic (JSON-like) Python values, for `utils.clean_ipv6` -/

/-- A Python value as it appears in the parsed JSON payloads:
booleans, strings, numbers, `None`, lists and string-keyed dicts.
(Numbers are modelled by `Int`; the fractional part plays no role in
any claim about `clean_ipv6`.) -/
inductive PyVal where
  | bool (b : Bool)
  | str (s : String)
  | num (n : Int)
  | null
  | list (xs : List PyVal)
  | dict (kvs : List (String × PyVal))

/-- Python exceptions that the embedded fragments can raise. -/
inductive PyErr where
  | typeError
  | attributeError
  | keyError
  | fuelExhausted
deriving DecidableEq, Repr

/-- Python's `v == s` for a string literal `s`: equality between a
non-string value and a string is `False`, never an error. -/
def isStrEq (v : PyVal) (s : String) : Bool :=
  match v with
  | .str t => t = s
  | _ => false

/-- Substring test: does `t` contain `s` as a contiguous substring?
This is the semantics of Python's `s in t` for two strings. -/
def strHasSubstr (t s : String) : Bool :=
  (t.toList.tails).any (fun suf => List.isPrefixOf s.toList suf)

/-- Python's `s in v` membership test for a string `s` against an
arbitrary value `v`: key membership for dicts, element membership for
lists, substring for strings, `TypeError` for scalars. -/
def pyIn (v : PyVal) (s : String) : Except PyErr Bool :=
  match v with
  | .dict kvs => .ok (kvs.any (fun kv => kv.1 = s))
  | .list xs => .ok (xs.any (fun x => isStrEq x s))
  | .str t => .ok (strHasSubstr t s)
  | .bool _ => .error .typeError
  | .num _ => .error .typeError
  | .null => .error .typeError

/-- Python's subscript `v[s]` with a string key: dict lookup
(`KeyError` when missing), `TypeError` on any other value. -/
def pyGetItem (v : PyVal) (s : String) : Except PyErr PyVal :=
  match v with
  | .dict kvs =>
    match kvs.find? (fun kv => kv.1 = s) with
    | some kv => .ok kv.2
    | none => .error .keyError
  | _ => .error .typeError

/-! ## `utils.clean_ipv6`

Source (utils.py lines 76-99):
```
def clean_ipv6(data):
    if isinstance(data, list):
        for idx, item in enumerate(data):
            if "ipType" in item and "ipAddress" in item:
                if item["ipType"] == "IPv6":
                    del data[idx]
            else:
                data[idx] = clean_ipv6(data[idx])
    else:
        for property in data:
            if isinstance(data.get(property), bool | str):
                data[property] = data.get(property)
            else:
                if isinstance(data.get(property), list):
                    if len(data[property]) == 0:
                        data[property] = []
                    else:
                        data[property] = clean_ipv6(data.get(property))
                else:
                    data[property] = clean_ipv6(data.get(property))
    return data
```

The list branch iterates with `enumerate` while deleting in place.  CPython's
list iterator reads position `idx`; after `del data[idx]` the element that
was at `idx + 1` shifts down to `idx` and the iterator, moving on to
`idx + 1`, never examines it: that element is kept unchanged.  Running the
loop on the remaining suffix of the list behaves exactly like a fresh
`clean_ipv6` call on that suffix (the loop carries no other state), which is
how `cleanFuel` expresses the iteration below.  The non-list branch iterates
`for property in data`: over a dict this walks the keys; over a non-empty
string it reads a character and `data.get(property)` raises
`AttributeError`; over an empty string the body never runs; over any other
scalar the `for` itself raises `TypeError`.  The recursion is driven by a
fuel parameter so that the function stays structurally recursive; the
wrapper `clean_ipv6` supplies `pvSize` fuel, which every call chain strictly
decreases, so `fuelExhausted` is unreachable from the wrapper. -/
def pvSize : PyVal → Nat
  | .bool _ => 1
  | .str _ => 1
  | .num _ => 1
  | .null => 1
  | .list [] => 1
  | .list (x :: xs) => 1 + pvSize x + pvSize (.list xs)
  | .dict [] => 1
  | .dict ((_, v) :: kvs) => 1 + pvSize v + pvSize (.dict kvs)

def cleanFuel : Nat → PyVal → Except PyErr PyVal
  | 0, _ => .error .fuelExhausted
  | _ + 1, .list [] => .ok (.list [])
  | n + 1, .list (x :: rest) => do
    let hasType ← pyIn x "ipType"
    let hasBoth ←
      if hasType then pyIn x "ipAddress" else pure false
    if hasBoth then do
      let t ← pyGetItem x "ipType"
      if isStrEq t "IPv6" then
        -- `del data[idx]`: the next element slides into slot `idx` and the
        -- iterator skips over it, keeping it unexamined.
        match rest with
        | [] => .ok (.list [])
        | y :: rest2 => do
          let r ← cleanFuel n (.list rest2)
          match r with
          | .list ys => .ok (.list (y :: ys))
          | _ => .error .typeError
      else do
        -- both keys present but not IPv6: kept as is, no recursion
        let r ← cleanFuel n (.list rest)
        match r with
        | .list ys => .ok (.list (x :: ys))
        | _ => .error .typeError
    else do
      -- `data[idx] = clean_ipv6(data[idx])`
      let x2 ← cleanFuel n x
      let r ← cleanFuel n (.list rest)
      match r with
      | .list ys => .ok (.list (x2 :: ys))
      | _ => .error .typeError
  | _ + 1, .dict [] => .ok (.dict [])
  | n + 1, .dict ((k, v) :: rest) => do
    let v2 ←
      match v with
      | .bool b => .ok (PyVal.bool b)
      | .str s => .ok (PyVal.str s)
      | .list [] => .ok (PyVal.list [])
      | other => cleanFuel n other
    let r ← cleanFuel n (.dict rest)
    match r with
    | .dict kvs => .ok (.dict ((k, v2) :: kvs))
    | _ => .error .typeError
  | _ + 1, .str s => if s.isEmpty then .ok (.str s) else .error .attributeError
  | _ + 1, .bool _ => .error .typeError
  | _ + 1, .num _ => .error .typeError
  | _ + 1, .null => .error .typeError

/-- `utils.clean_ipv6`, with enough fuel for its argument. -/
def clean_ipv6 (data : PyVal) : Except PyErr PyVal :=
  cleanFuel (pvSize data + 1) data

/-- An `ipType`/`ipAddress` pair with type IPv6, as in the network
topology payloads. -/
def ipv6Entry (addr : String) : PyVal :=
  .dict [("ipType", .str "IPv6"), ("ipAddress", .str addr)]

/-- An `ipType`/`ipAddress` pair with type IPv4. -/
def ipv4Entry (addr : String) : PyVal :=
  .dict [("ipType", .str "IPv4"), ("ipAddress", .str addr)]

/-! ## `utils.get_localized`

Source (utils.py lines 67-73): scan the list for the first entry whose
`"locale"` equals the requested language, else fall back to the first
entry (`localizedcontent[0]`, an `IndexError` on an empty list, hence the
`Option` result). -/

/-- One entry of a `localizedcontent` array; only the fields the client
reads are carried. -/
structure LocEntry where
  locale : Option String
  name : Option String
deriving DecidableEq, Repr

def get_localized (language : String) (localizedcontent : List LocEntry) :
    Option LocEntry :=
  match localizedcontent.find? (fun l => l.locale = some language) with
  | some l => some l
  | none => localizedcontent.head?

/-! ## `TelenetClient.request` (client.py lines 73-135)

The HTTP layer is modelled by the list of responses the server returns to
the successive attempts of one `request` call (the first element answers
the initial attempt, the next one the first retry, and so on).  A response
carries the pieces of state the wrapper inspects: the status code, the
optional `"code"` field of the JSON body (`r.find("code") != -1` holds
exactly when that field is present) and the `"cause"` field.  The
`caller`/`log` parameters only affect logging and the `url`/`data`
parameters only determine which responses come back, so they are absorbed
into the response trace.  `self.login()` inside the retry path is modelled
as an opaque re-authentication action; the function returns how many times
it was invoked.  Raised `TelenetServiceException`s become
`ReqError.serviceExc`; a trace too short for the recursion becomes
`ReqError.noResponse` (the call is still demanding further attempts). -/

structure Response where
  status : Nat
  code : Option String
  cause : String
deriving DecidableEq, Repr

inductive ReqError where
  | serviceExc (msg : String)
  | noResponse
deriving DecidableEq, Repr

inductive ReqResult where
  | sentinelFalse
  | resp (r : Response)
deriving DecidableEq, Repr

/-- Lines 130-135: after the expected-status block, `request` returns
`False` when the (possibly retried) response is the boolean sentinel or
has status `>= 404` while `return_false` is set. -/
def postReturn (v : ReqResult) (return_false : Bool) : ReqResult :=
  match v with
  | .sentinelFalse => .sentinelFalse
  | .resp r => if 404 ≤ r.status ∧ return_false = true then .sentinelFalse else .resp r

def request (username : String) :
    List Response → (retrying : Bool) → (connection_retry_left : Int) →
    (expected : Option Nat) → (return_false : Bool) →
    Except ReqError ReqResult × Nat
  | [], _, _, _, _ => (.error .noResponse, 0)
  | r :: rest, retrying, connection_retry_left, expected, return_false =>
    let mismatched := match expected with
      | none => false
      | some e => r.status ≠ e
    if mismatched then
      if r.status = 404 then
        -- lines 97-99: soft absence
        (.ok .sentinelFalse, 0)
      else if r.status ≠ 403 ∧ r.status ≠ 401 ∧ r.status ≠ 500 ∧
          0 < connection_retry_left ∧ retrying = false then
        -- lines 100-109
        (.error (.serviceExc ("Expecting HTTP " ++ toString expected ++
          " | Response HTTP " ++ toString r.status)), 0)
      else if r.status = 403 ∧ r.code.isSome then
        -- lines 110-121
        match r.code with
        | some c =>
          if c ∉ ["OCAPI-ERR-667"] then (.ok .sentinelFalse, 0)
          else (.error (.serviceExc (r.cause ++ " for " ++ username)), 0)
        | none => (.ok .sentinelFalse, 0)    -- unreachable: isSome holds
      else
        -- lines 123-129: self.login() then retry with the budget decremented
        match request username rest true (connection_retry_left - 1) expected true with
        | (.error e, logins) => (.error e, logins + 1)
        | (.ok v, logins) => (.ok (postReturn v return_false), logins + 1)
    else
      (.ok (postReturn (.resp r) return_false), 0)

/-- Is the outcome a raised `TelenetServiceException`? -/
def isServiceExc : Except ReqError ReqResult → Bool
  | .error (.serviceExc _) => true
  | _ => false

/-! ## The challenge loop of `TelenetClient.login` (client.py lines 141-168)

Each iteration issues `request(.../userdetails, expected=None,
return_false=False)`, which hands back the raw response whatever its
status.  The response is summarised by its status and by
`len(response.text.split(",", maxsplit=2))` (between 1 and 3).  The loop
raises for statuses above 404 or outside {200, 401, 403}, returns on 200,
exits on a two-token split, and otherwise checks
`token_fetch_count > CONNECTION_RETRY` before incrementing the counter and
fetching again.  A trace too short for the loop is reported as
`noResponse`: the loop is still demanding further fetches. -/

def CONNECTION_RETRY : Nat := 5

structure ChallengeResponse where
  status : Nat
  split_parts : Nat
deriving DecidableEq, Repr

inductive LoginOutcome where
  | authenticated
  | challenge
  | serviceError
  | noResponse
deriving DecidableEq, Repr

def login_challenge_loop : List ChallengeResponse → Nat → LoginOutcome
  | [], _ => .noResponse
  | r :: rest, token_fetch_count =>
    if 404 < r.status then .serviceError
    else if r.status = 200 then .authenticated
    else if r.status ≠ 401 ∧ r.status ≠ 403 then .serviceError
    else if CONNECTION_RETRY < token_fetch_count then .serviceError
    else if r.split_parts = 2 then .challenge
    else login_challenge_loop rest (token_fetch_count + 1)

/-- A 401 response whose body does not split into two tokens. -/
def badChallenge : ChallengeResponse := ⟨401, 1⟩

/-! ## Internet usage percentage in `create_extra_sensors`
(client.py lines 458-468)

Exact decimal arithmetic on the claim's inputs, so the Python float
computation is modelled over `ℚ`; the four JSON paths the code reads
become record fields. -/

structure InternetUsage where
  category : String
  totalUsage_units : ℚ
  allocatedUsage_units : ℚ
  extendedUsage_volume : ℚ

def create_extra_sensors_usage_pct (usage : InternetUsage) : ℚ :=
  if usage.category = "UNLIMITED" then 0
  else 100 * usage.totalUsage_units /
    (usage.allocatedUsage_units + usage.extendedUsage_volume)

/-! ## Legacy `buildv1` internet total volume (client.py lines 1491-1531)

`total_volume` starts from the usage's extended volume, then: if
`characteristics.service_category_limit` is a dict, add
`int(value) * MEGA`; elif `characteristics.elementarycharacteristics` is a
list, scan it and add `int(value) * MEGA` of the first entry whose key is
`"internet_usage_limit"` (the loop breaks at the first match); else add
the usage's `includedvolume`.  `some v` models "the field is a dict with
`int(value) = v`"; `some elems` models "the field is a list with the given
`(key, int(value))` entries". -/

def MEGA : Int := 1048576

def buildv1_total_volume (extendedvolume includedvolume : Int)
    (service_category_limit : Option Int)
    (elementarycharacteristics : Option (List (String × Int))) : Int :=
  match service_category_limit with
  | some v => extendedvolume + v * MEGA
  | none =>
    match elementarycharacteristics with
    | some elems =>
      match elems.find? (fun e => e.1 = "internet_usage_limit") with
      | some e => extendedvolume + e.2 * MEGA
      | none => extendedvolume
    | none => extendedvolume + includedvolume

/-- Modelled from the spec's words for the comparison in claim C9: "the
summed elementary-characteristics list entry keyed `internet_usage_limit`"
read as summing the values of every matching entry. -/
def spec_summed_total_volume (extendedvolume includedvolume : Int)
    (service_category_limit : Option Int)
    (elementarycharacteristics : Option (List (String × Int))) : Int :=
  match service_category_limit with
  | some v => extendedvolume + v * MEGA
  | none =>
    match elementarycharacteristics with
    | some elems =>
      extendedvolume +
        ((elems.filter (fun e => e.1 = "internet_usage_limit")).map
          (fun e => e.2)).sum * MEGA
    | none => extendedvolume + includedvolume

/-! ## `utils.format_entity_name` (utils.py lines 41-46)

`strip`, collapse each maximal whitespace run to one `_`
(`re.sub(r"\s+", "_", ...)`), drop every character outside `[A-Za-z0-9_]`
(`re.sub(r"\W+", "", ...)`), lower-case. -/

def isWordChar (c : Char) : Bool := c.isAlphanum || c = '_'

def collapseWsAux : List Char → Bool → List Char
  | [], _ => []
  | c :: cs, prevWs =>
    if c.isWhitespace then
      (if prevWs then [] else ['_']) ++ collapseWsAux cs true
    else c :: collapseWsAux cs false

def format_entity_name (s : String) : String :=
  String.mk (((collapseWsAux s.trim.toList false).filter isWordChar).map
    Char.toLower)

/-! ## `TelenetClient.add_product` (client.py lines 213-268)

The raw `product` dict is represented by the five fields the method reads
(`identifier`, `productType`, `specurl`, `label`, `addressId`), each an
`Option` because `dict.get` yields `None` for missing keys.  The three
helper calls that perform I/O (`product_details`, `get_simdetail`,
`address`) are supplied as oracles in `ClientEnv`.  `product_details`
returns `False` on fetch failure, making the following `.get("product")`
raise an uncaught `AttributeError` (`DetailsResult.fetchFailed`); a
payload without a `"product"` key leaves `product_info = None`
(`DetailsResult.noProductField`).  Inside the price `try` block,
`characteristics`/`salespricevatincl` lookup failures and
`str_to_float` failures all fall into the bare `except` and leave the
price at `None`; `salespricevatincl.value` is carried already parsed as
`Option ℚ` (`none` = `str_to_float` raises).  The state `try` block falls
back to `product.get("label")` when `localizedcontent` is missing or the
list is empty (`localizedcontent[0]` raising `IndexError`). -/

structure SalesPrice where
  value : Option ℚ
deriving DecidableEq

structure ProductInfo where
  salespricevatincl : Option SalesPrice
  localizedcontent : Option (List LocEntry)
deriving DecidableEq

inductive DetailsResult where
  | fetchFailed
  | noProductField
  | product (info : ProductInfo)

structure ProductJson where
  identifier : Option String
  productType : Option String
  specurl : Option String
  label : Option String
  addressId : Option String
deriving DecidableEq

/-- `models.TelenetProduct`, with the dataclass defaults of models.py;
the free-form dict fields carry `PyVal`, the empty dict being `.dict []`,
and `product_price`'s falsy `{}` default is modelled by `none`. -/
structure TelenetProduct where
  product_name : Option String := some ""
  product_key : String := ""
  product_address : PyVal := .dict []
  product_description_key : Option String := some ""
  product_state : Option String := some "Inactive"
  product_identifier : Option String := some ""
  product_type : Option String := some ""
  product_specurl : Option String := some ""
  product_info : Option ProductInfo := none
  product_plan_identifier : String := ""
  product_plan_label : String := ""
  product_subscription_info : PyVal := .dict []
  product_extra_attributes : PyVal := .dict []
  product_extra_sensor : Bool := false
  product_price : Option SalesPrice := none
  product_ignore_extra_sensor : Bool := false
  native_unit_of_measurement : Option String := none

structure ClientEnv where
  language : String
  product_details : String → DetailsResult
  get_simdetail : Option String → PyVal
  address : Option String → PyVal

/-- The slice of the mutable client state that `add_product` touches:
`self.all_products` (a Python dict in insertion order, so an association
list) and `self.product_types`. -/
structure ClientState where
  all_products : List (Option String × TelenetProduct) := []
  product_types : List (Option String) := []

/-- Python's `f"{x}"` on an optional string (`None` prints as "None"). -/
def optStr : Option String → String
  | some s => s
  | none => "None"

def add_product (env : ClientEnv) (st : ClientState) (product : ProductJson)
    (plan_identifier : String) (state_prop : String) (plan_label : String) :
    Except PyErr (Bool × ClientState) :=
  let identifier := product.identifier
  -- lines 217-219: `if identifier in self.all_products: return False`
  if st.all_products.any (fun kv => kv.1 = identifier) then .ok (false, st)
  else do
    let ty := product.productType
    -- lines 224-240: price extraction behind `specurl`
    let infoPrice : Option ProductInfo × Option SalesPrice ←
      match product.specurl with
      | some url =>
        match env.product_details url with
        | .fetchFailed => .error .attributeError
        | .noProductField => .ok (none, none)
        | .product info =>
          let price :=
            match info.salespricevatincl with
            | some sp =>
              match sp.value with
              | some q => if 0 < q then some sp else none
              | none => none
            | none => none
          .ok (some info, price)
      | none => .ok (none, none)
    let product_info := infoPrice.1
    let product_price := infoPrice.2
    -- lines 241-246: localized state with fallback to the label
    let state : Option String :=
      match product_info with
      | some info =>
        match info.localizedcontent with
        | some xs =>
          match get_localized env.language xs with
          | some entry => entry.name
          | none => product.label
        | none => product.label
      | none => product.label
    -- lines 248-250
    let product_extra_attributes : PyVal :=
      if ty = some "mobile" then env.get_simdetail identifier else .dict []
    -- lines 252-266
    let newProduct : TelenetProduct :=
      { product_identifier := identifier
        product_type := ty
        product_description_key := ty
        product_plan_identifier := plan_identifier
        product_plan_label := plan_label
        product_name := identifier
        product_key := format_entity_name
          (optStr identifier ++ " " ++ optStr ty ++ " product")
        product_state := state
        product_specurl := product.specurl
        product_info := product_info
        product_address := env.address product.addressId
        product_price := product_price
        product_extra_attributes := product_extra_attributes }
    -- line 267: `add_product_type type` appends when unseen
    let types :=
      if st.product_types.contains ty then st.product_types
      else st.product_types ++ [ty]
    .ok (true,
      { all_products := st.all_products ++ [(identifier, newProduct)]
        product_types := types })

/-! ## `TelenetDataUpdateCoordinator._async_update_data`
(custom_components/telenet/__init__.py lines 80-140)

The fetch itself (`products_refreshed`) and the exception translation to
`UpdateFailed` are host-platform glue; the change-detection step is the
function below.  `device_plan_ids` stands for `current_products`, the plan
identifiers of the previously materialized device-registry records;
`prev` stands for `self.data`, the product list a previous cycle returned
(`none` before any cycle).  The first component collects the stale plan
identifiers handed to `async_remove_device`; a `none` second component is
the `return None` that accompanies the scheduled config-entry reload. -/

def plan_ids (products : List TelenetProduct) : List String :=
  products.map (fun p => p.product_plan_identifier)

def async_update_data (products : List TelenetProduct)
    (device_plan_ids : List String) (prev : Option (List TelenetProduct)) :
    List String × Option (List TelenetProduct) :=
  if 0 < products.length then
    let fetched_products := plan_ids products
    -- `stale_products := current_products - fetched_products`
    let stale_products :=
      device_plan_ids.filter (fun d => !(fetched_products.contains d))
    -- `if self.data and fetched_products - {plan ids of self.data}:`
    match prev with
    | some l =>
      if !l.isEmpty ∧
          fetched_products.any (fun f => !((plan_ids l).contains f)) then
        (stale_products, none)
      else (stale_products, some products)
    | none => (stale_products, some products)
  else ([], some [])

/-! ## Claims -/

/-- C3: for an internet product whose usage category is not "UNLIMITED",
the usage percentage of the "usage" extra sensor equals
`100 * totalUsage.units / (allocatedUsage.units + extendedUsage.volume)`;
`allocated = 10`, `extended = 2`, `used = 6` gives `50`; for category
"UNLIMITED" the percentage is `0` regardless of the usage values. -/
theorem C3_internet_usage_percentage :
    create_extra_sensors_usage_pct ⟨"FUP", 6, 10, 2⟩ = 50 ∧
    (∀ u : InternetUsage, u.category = "UNLIMITED" →
      create_extra_sensors_usage_pct u = 0) ∧
    (∀ u : InternetUsage, u.category ≠ "UNLIMITED" →
      create_extra_sensors_usage_pct u =
        100 * u.totalUsage_units /
          (u.allocatedUsage_units + u.extendedUsage_volume)) := by
  refine ⟨?_, ?_, ?_⟩
  · simp only [create_extra_sensors_usage_pct]
    rw [if_neg (by decide)]
    norm_num
  · intro u h
    simp [create_extra_sensors_usage_pct, h]
  · intro u h
    simp [create_extra_sensors_usage_pct, h]

/-- Witness for C3 at the concrete inputs of the claim. -/
theorem C3_internet_usage_percentage_witness :
    create_extra_sensors_usage_pct ⟨"UNLIMITED", 6, 10, 2⟩ = 0 ∧
    create_extra_sensors_usage_pct ⟨"FUP", 6, 10, 2⟩ =
      100 * 6 / (10 + 2) :=
  ⟨C3_internet_usage_percentage.2.1 ⟨"UNLIMITED", 6, 10, 2⟩ rfl,
   C3_internet_usage_percentage.2.2 ⟨"FUP", 6, 10, 2⟩ (by decide)⟩

/-- C6: `clean_ipv6` is claimed to remove every element carrying both
`ipType = "IPv6"` and an `ipAddress`, including adjacent ones.  Evaluating
the embedded code: on the claim's own two-element example the IPv6 entry
is removed, but with two adjacent IPv6 entries the in-place `del` shifts
the list under the live iterator and the second IPv6 entry is skipped and
kept. -/
theorem C6_clean_ipv6_keeps_adjacent_ipv6 :
    clean_ipv6 (.list [ipv6Entry "::1", ipv6Entry "::2", ipv4Entry "1.2.3.4"])
      = .ok (.list [ipv6Entry "::2", ipv4Entry "1.2.3.4"]) ∧
    clean_ipv6 (.list [ipv6Entry "::1", ipv4Entry "1.2.3.4"])
      = .ok (.list [ipv4Entry "1.2.3.4"]) := by
  constructor
  · simp only [clean_ipv6, pvSize, ipv6Entry, ipv4Entry]
    norm_num
    rfl
  · simp only [clean_ipv6, pvSize, ipv6Entry, ipv4Entry]
    norm_num
    rfl

/-- C8: registering a product whose identifier is already a key of
`all_products` returns `False` and leaves the client state (both the
product map and the product-type list) unchanged. -/
theorem C8_add_product_idempotent :
    ∀ (env : ClientEnv) (st : ClientState) (product : ProductJson)
      (plan_identifier state_prop plan_label : String),
      st.all_products.any (fun kv => kv.1 = product.identifier) = true →
      add_product env st product plan_identifier state_prop plan_label
        = .ok (false, st) := by
  intro env st product plan_identifier state_prop plan_label h
  simp [add_product, h]

/-- Witness for C8: a concrete client state already holding identifier
"abc", re-registered. -/
theorem C8_add_product_idempotent_witness :
    add_product
      ⟨"nl", fun _ => .noProductField, fun _ => .dict [], fun _ => .dict []⟩
      ⟨[(some "abc", { product_plan_identifier := "plan" })], [some "internet"]⟩
      ⟨some "abc", some "internet", none, some "lbl", none⟩ "plan" "label" "Plan"
      = .ok (false,
        ⟨[(some "abc", { product_plan_identifier := "plan" })], [some "internet"]⟩) :=
  C8_add_product_idempotent
    ⟨"nl", fun _ => .noProductField, fun _ => .dict [], fun _ => .dict []⟩
    ⟨[(some "abc", { product_plan_identifier := "plan" })], [some "internet"]⟩
    ⟨some "abc", some "internet", none, some "lbl", none⟩ "plan" "label" "Plan"
    (by decide)

/-- C10: for a non-empty localized-content list, `get_localized` returns
an entry whose locale is the requested language when one exists, else the
first entry; on the claim's example list, requesting "nl" selects the
entry named "X" and requesting "de" falls back to the first entry. -/
theorem C10_get_localized_selection :
    get_localized "nl" [⟨some "fr", some "F"⟩, ⟨some "nl", some "X"⟩]
      = some ⟨some "nl", some "X"⟩ ∧
    get_localized "de" [⟨some "fr", some "F"⟩, ⟨some "nl", some "X"⟩]
      = some ⟨some "fr", some "F"⟩ ∧
    (∀ (lang : String) (xs : List LocEntry), xs ≠ [] →
      ((∃ l ∈ xs, l.locale = some lang) →
        ∃ l, get_localized lang xs = some l ∧ l.locale = some lang) ∧
      ((∀ l ∈ xs, l.locale ≠ some lang) →
        get_localized lang xs = xs.head?)) := by
  refine ⟨by decide, by decide, ?_⟩
  intro lang xs hne
  constructor
  · intro hex
    unfold get_localized
    cases hfind : xs.find? (fun l => l.locale = some lang) with
    | some l =>
      refine ⟨l, rfl, ?_⟩
      have := List.find?_some hfind
      simpa using this
    | none =>
      exfalso
      obtain ⟨l, hl, hloc⟩ := hex
      have := List.find?_eq_none.mp hfind l hl
      simp [hloc] at this
  · intro hall
    unfold get_localized
    have hfind : xs.find? (fun l => l.locale = some lang) = none :=
      List.find?_eq_none.mpr (fun l hl => by simp [hall l hl])
    rw [hfind]

/-- Witness for C10: the general part applied to a concrete singleton
list, both in the matching and in the fallback case. -/
theorem C10_get_localized_selection_witness :
    (∃ l, get_localized "fr" [⟨some "fr", some "F"⟩] = some l ∧
      l.locale = some "fr") ∧
    get_localized "de" [⟨some "fr", some "F"⟩]
      = ([⟨some "fr", some "F"⟩] : List LocEntry).head? :=
  ⟨(C10_get_localized_selection.2.2 "fr" [⟨some "fr", some "F"⟩]
      (by decide)).1 ⟨⟨some "fr", some "F"⟩, by decide, rfl⟩,
   (C10_get_localized_selection.2.2 "de" [⟨some "fr", some "F"⟩]
      (by decide)).2 (by decide)⟩

/-- Helper: against a stream of nothing but 401 responses, a `request`
call expecting 200 keeps re-authenticating and recursing, consuming every
available response, for any retry flag and any (even negative) remaining
budget: no branch of the code ever turns an exhausted budget into an
exception on this path. -/
theorem request_persistent_401 (u : String) :
    ∀ (n : Nat) (retrying : Bool) (budget : Int) (rf : Bool),
      (request u (List.replicate n ⟨401, none, ""⟩) retrying budget
        (some 200) rf).1 = .error .noResponse := by
  intro n
  induction n with
  | zero => intro retrying budget rf; simp [request]
  | succ n ih =>
    intro retrying budget rf
    rw [List.replicate_succ]
    rcases hq : request u (List.replicate n ⟨401, none, ""⟩) true (budget - 1)
        (some 200) true with ⟨res, logins⟩
    have hres : res = .error .noResponse := by
      have h := ih true (budget - 1) true
      rw [hq] at h
      exact h
    simp only [request]
    norm_num
    rw [hq, hres]

/-- C1 counterexample: a first response with the mismatched retryable
status 502, a full retry budget of 5 and a 200 ready for the very next
attempt.  The claim says the client re-authenticates and retries; the code
instead raises `TelenetServiceException` at once, never invoking
`login()` (the login counter stays 0). -/
theorem C1_counterexample_502_raises_with_full_budget :
    isServiceExc (request "u" [⟨502, none, ""⟩, ⟨200, none, ""⟩] false 5
      (some 200) true).1 = true ∧
    (request "u" [⟨502, none, ""⟩, ⟨200, none, ""⟩] false 5
      (some 200) true).2 = 0 := by
  constructor <;> rfl

/-- C1 amended: on a mismatched status other than 404 with a positive
budget on a non-retry call, a status outside {403, 401, 500} makes
`request` raise `TelenetServiceException` immediately with zero
re-authentications; a persistently mismatched 401 instead re-authenticates
and recurses without any budget-based termination, consuming every
response of an arbitrarily long trace. -/
theorem C1_amended_request_retry_behaviour :
    (∀ (r : Response) (rest : List Response),
      r.status ≠ 403 → r.status ≠ 401 → r.status ≠ 500 → r.status ≠ 404 →
      r.status ≠ 200 →
      isServiceExc (request "u" (r :: rest) false 5 (some 200) true).1 = true ∧
      (request "u" (r :: rest) false 5 (some 200) true).2 = 0) ∧
    (∀ n : Nat,
      (request "u" (List.replicate n ⟨401, none, ""⟩) false 5
        (some 200) true).1 = .error .noResponse) := by
  constructor
  · intro r rest h403 h401 h500 h404 h200
    simp [request, h403, h401, h500, h404, h200, isServiceExc]
  · intro n
    exact request_persistent_401 "u" n false 5 true

/-- Witness for C1 amended at status 502 and a three-response 401 trace. -/
theorem C1_amended_request_retry_behaviour_witness :
    (isServiceExc (request "u" [⟨502, none, ""⟩] false 5 (some 200) true).1
        = true ∧
      (request "u" [⟨502, none, ""⟩] false 5 (some 200) true).2 = 0) ∧
    (request "u" (List.replicate 3 ⟨401, none, ""⟩) false 5
      (some 200) true).1 = .error .noResponse :=
  ⟨C1_amended_request_retry_behaviour.1 ⟨502, none, ""⟩ []
      (by decide) (by decide) (by decide) (by decide) (by decide),
   C1_amended_request_retry_behaviour.2 3⟩

/-- Helper: a 403 response whose body carries a `"code"` different from
"OCAPI-ERR-667" makes `request` return the `False` sentinel at once. -/
theorem request_403_other_code_soft (u c cause : String)
    (rest : List Response) (retrying : Bool) (budget : Int) (rf : Bool)
    (e : Nat) (he : e ≠ 403) (hc : c ≠ "OCAPI-ERR-667") :
    request u (⟨403, some c, cause⟩ :: rest) retrying budget (some e) rf
      = (.ok .sentinelFalse, 0) := by
  have h : (403 : Nat) ≠ e := fun h => he h.symm
  simp [request, h, hc]

/-- C2 counterexample: there is no "specific soft-absence value" `soft`
behaving as the claim states, because two distinct codes other than
"OCAPI-ERR-667" (here "A" and "B") both yield the `False` sentinel, while
the claim would require every code other than `soft` to raise. -/
theorem C2_counterexample_no_soft_code_value :
    ¬ ∃ soft : String, ∀ c : String,
      (c = soft →
        (request "u" [⟨403, some c, "cause"⟩] false 5 (some 200) true).1
          = .ok .sentinelFalse) ∧
      (c ≠ soft →
        isServiceExc (request "u" [⟨403, some c, "cause"⟩] false 5
          (some 200) true).1 = true) := by
  rintro ⟨soft, h⟩
  by_cases hA : soft = "A"
  · have hne : "B" ≠ soft := by simp [hA]
    have hb := (h "B").2 hne
    rw [request_403_other_code_soft "u" "B" "cause" [] false 5 true 200
      (by decide) (by decide)] at hb
    simp [isServiceExc] at hb
  · have hne : "A" ≠ soft := fun heq => hA heq.symm
    have ha := (h "A").2 hne
    rw [request_403_other_code_soft "u" "A" "cause" [] false 5 true 200
      (by decide) (by decide)] at ha
    simp [isServiceExc] at ha

/-- C2 amended: for a call with a non-None expected status other than 403
that receives a 403 whose body has a `"code"` field, a code different from
"OCAPI-ERR-667" returns the `False` sentinel (soft absence), and the code
"OCAPI-ERR-667" raises `TelenetServiceException` carrying the body's
`cause`. -/
theorem C2_amended_403_code_handling :
    ∀ (u c cause : String) (rest : List Response) (retrying : Bool)
      (budget : Int) (rf : Bool) (e : Nat), e ≠ 403 →
      (c ≠ "OCAPI-ERR-667" →
        request u (⟨403, some c, cause⟩ :: rest) retrying budget (some e) rf
          = (.ok .sentinelFalse, 0)) ∧
      (c = "OCAPI-ERR-667" →
        request u (⟨403, some c, cause⟩ :: rest) retrying budget (some e) rf
          = (.error (.serviceExc (cause ++ " for " ++ u)), 0)) := by
  intro u c cause rest retrying budget rf e he
  have h : (403 : Nat) ≠ e := fun h => he h.symm
  constructor
  · intro hc
    exact request_403_other_code_soft u c cause rest retrying budget rf e he hc
  · intro hc
    simp [request, h, hc]

/-- Witness for C2 amended: both 403 code branches at concrete inputs. -/
theorem C2_amended_403_code_handling_witness :
    request "u" [⟨403, some "OCAPI-ERR-666", "cause"⟩] false 5 (some 200) true
      = (.ok .sentinelFalse, 0) ∧
    request "u" [⟨403, some "OCAPI-ERR-667", "cause"⟩] false 5 (some 200) true
      = (.error (.serviceExc ("cause" ++ " for " ++ "u")), 0) :=
  ⟨(C2_amended_403_code_handling "u" "OCAPI-ERR-666" "cause" [] false 5 true
      200 (by decide)).1 (by decide),
   (C2_amended_403_code_handling "u" "OCAPI-ERR-667" "cause" [] false 5 true
      200 (by decide)).2 rfl⟩

/-- C7 counterexample: with the expected status itself 404 and
`return_false = False`, a 404 response is returned as the response object,
not as the `False` sentinel, so the sentinel behaviour does not hold
"regardless of the `return_false` flag value" for every non-None
expected status. -/
theorem C7_counterexample_expected_404 :
    ¬ ((request "u" [⟨404, none, ""⟩] false 5 (some 404) false).1
        = .ok .sentinelFalse) := by
  intro h
  have heval : (request "u" [⟨404, none, ""⟩] false 5 (some 404) false).1
      = .ok (.resp ⟨404, none, ""⟩) := rfl
  rw [heval] at h
  simp at h

/-- C7 amended: a 404 response makes `request` return the `False`
sentinel without raising whenever the non-None expected status differs
from 404, and also when it is 404 with `return_false` set; only for
expected 404 with `return_false = False` is the raw response returned
(still without raising). -/
theorem C7_amended_404_soft_absence :
    ∀ (u : String) (r : Response) (rest : List Response) (retrying : Bool)
      (budget : Int) (e : Nat) (rf : Bool), r.status = 404 →
      (e ≠ 404 →
        request u (r :: rest) retrying budget (some e) rf
          = (.ok .sentinelFalse, 0)) ∧
      (e = 404 → rf = true →
        request u (r :: rest) retrying budget (some e) rf
          = (.ok .sentinelFalse, 0)) ∧
      (e = 404 → rf = false →
        request u (r :: rest) retrying budget (some e) rf
          = (.ok (.resp r), 0)) := by
  intro u r rest retrying budget e rf h404
  obtain ⟨s, rcode, rcause⟩ := r
  have hs : s = 404 := h404
  subst hs
  refine ⟨?_, ?_, ?_⟩
  · intro he
    have h : (404 : Nat) ≠ e := fun heq => he heq.symm
    simp [request, h]
  · intro he hrf
    subst he hrf
    simp [request, postReturn]
  · intro he hrf
    subst he hrf
    simp [request, postReturn]

/-- Witness for C7 amended: all three branches at concrete responses. -/
theorem C7_amended_404_soft_absence_witness :
    request "u" [⟨404, none, ""⟩] false 5 (some 200) true
      = (.ok .sentinelFalse, 0) ∧
    request "u" [⟨404, none, ""⟩] false 5 (some 404) true
      = (.ok .sentinelFalse, 0) ∧
    request "u" [⟨404, none, ""⟩] false 5 (some 404) false
      = (.ok (.resp ⟨404, none, ""⟩), 0) :=
  ⟨(C7_amended_404_soft_absence "u" ⟨404, none, ""⟩ [] false 5 200 true
      rfl).1 (by decide),
   (C7_amended_404_soft_absence "u" ⟨404, none, ""⟩ [] false 5 404 true
      rfl).2.1 rfl rfl,
   (C7_amended_404_soft_absence "u" ⟨404, none, ""⟩ [] false 5 404 false
      rfl).2.2 rfl rfl⟩

/-- Helper: once at least `7 - count` responses are available, the
challenge loop never looks further: every branch of the seventh iteration
(counter 6) is terminal because `token_fetch_count > CONNECTION_RETRY`
fires before the loop would recurse. -/
theorem login_loop_bounded :
    ∀ (pre rest : List ChallengeResponse) (count : Nat), count ≤ 6 →
      7 ≤ pre.length + count →
      login_challenge_loop (pre ++ rest) count
        = login_challenge_loop pre count := by
  intro pre
  induction pre with
  | nil =>
    intro rest count h1 h2
    simp only [List.length_nil] at h2
    omega
  | cons r pre ih =>
    intro rest count h1 h2
    simp only [List.cons_append, login_challenge_loop]
    split_ifs with h3 h4 h5 h6 h7
    · rfl
    · rfl
    · rfl
    · rfl
    · rfl
    · exact ih rest (count + 1) (by simp [CONNECTION_RETRY] at h6; omega)
        (by simp only [List.length_cons] at h2; omega)

/-- C5 counterexample: after six challenge fetches whose bodies fail the
two-token split (one initial attempt plus the five retries the claim
allows), the loop does not raise: it demands a seventh fetch (the
six-response trace is exhausted without an outcome). -/
theorem C5_counterexample_sixth_retry_happens :
    login_challenge_loop (List.replicate 6 badChallenge) 0 = .noResponse ∧
    login_challenge_loop (List.replicate 6 badChallenge) 0
      ≠ .serviceError := by
  constructor <;> decide

/-- C5 amended: the challenge loop is bounded, but at seven fetches, not
six: the guard `token_fetch_count > CONNECTION_RETRY` fires during the
seventh iteration, so any trace is decided within its first seven
responses, and seven consecutive unparseable 401 responses raise
`TelenetServiceException`. -/
theorem C5_amended_login_bounded_at_seven :
    (∀ pre rest : List ChallengeResponse, pre.length = 7 →
      login_challenge_loop (pre ++ rest) 0 = login_challenge_loop pre 0) ∧
    login_challenge_loop (List.replicate 7 badChallenge) 0
      = .serviceError := by
  constructor
  · intro pre rest h
    exact login_loop_bounded pre rest 0 (by omega) (by omega)
  · decide

/-- Witness for C5 amended: a trace of seven bad challenges followed by a
perfect challenge response; the loop raises without reaching it. -/
theorem C5_amended_login_bounded_at_seven_witness :
    login_challenge_loop (List.replicate 7 badChallenge ++ [⟨401, 2⟩]) 0
      = login_challenge_loop (List.replicate 7 badChallenge) 0 :=
  C5_amended_login_bounded_at_seven.1 (List.replicate 7 badChallenge)
    [⟨401, 2⟩] (by decide)

/-- C4 counterexample: the previous cycle legitimately returned the empty
list (an empty upstream result is valid), and the next fetch brings plan
"A", which is absent from that previous in-memory product set.  The claim
requires the cycle to return no data; the code's truthiness guard
`if self.data and ...` skips the reload for a falsy previous list and the
products are returned. -/
theorem C4_counterexample_empty_previous_data :
    (async_update_data [{ product_plan_identifier := "A" }] []
        (some [])).2
      = some [{ product_plan_identifier := "A" }] ∧
    "A" ∉ plan_ids ([] : List TelenetProduct) := by
  constructor
  · rfl
  · simp [plan_ids]

/-- C4 amended: when the fetched product list is non-empty, every plan
identifier among the previous device records that is absent from the
fetched plan identifiers is flagged for device removal; when additionally
the previous in-memory product list is non-empty and some fetched product
has a plan identifier absent from it, the update returns no data; an
empty fetched list yields the empty result with no removals. -/
theorem C4_amended_change_detection :
    ∀ (products : List TelenetProduct) (device_plan_ids : List String)
      (prev : Option (List TelenetProduct)) (d : String),
      (products ≠ [] → d ∈ device_plan_ids → d ∉ plan_ids products →
        d ∈ (async_update_data products device_plan_ids prev).1) ∧
      (∀ l, prev = some l → l ≠ [] →
        (∃ p ∈ products, p.product_plan_identifier ∉ plan_ids l) →
        (async_update_data products device_plan_ids prev).2 = none) ∧
      (async_update_data [] device_plan_ids prev = ([], some [])) := by
  intro products device_plan_ids prev d
  refine ⟨?_, ?_, ?_⟩
  · intro hne hmem hnot
    have hlen : 0 < products.length := List.length_pos.mpr hne
    have hstale : d ∈ device_plan_ids.filter
        (fun x => !((plan_ids products).contains x)) :=
      List.mem_filter.mpr ⟨hmem, by simpa using hnot⟩
    unfold async_update_data
    rw [if_pos hlen]
    cases prev with
    | none => exact hstale
    | some l =>
      show d ∈ (if ((!l.isEmpty) = true ∧ ((plan_ids products).any
          (fun f => !((plan_ids l).contains f))) = true) then
          (device_plan_ids.filter (fun x => !((plan_ids products).contains x)),
            (none : Option (List TelenetProduct)))
        else
          (device_plan_ids.filter (fun x => !((plan_ids products).contains x)),
            some products)).1
      split <;> exact hstale
  · intro l hprev hlne hex
    subst hprev
    obtain ⟨p, hp, hpnot⟩ := hex
    have hne : products ≠ [] := by
      intro hcon
      rw [hcon] at hp
      exact absurd hp (List.not_mem_nil p)
    have hlen : 0 < products.length := List.length_pos.mpr hne
    have hcond : ((!l.isEmpty) = true ∧ ((plan_ids products).any
        (fun f => !((plan_ids l).contains f))) = true) := by
      refine ⟨by simpa [List.isEmpty_iff] using hlne, ?_⟩
      refine List.any_eq_true.mpr ⟨p.product_plan_identifier, ?_, ?_⟩
      · exact List.mem_map.mpr ⟨p, hp, rfl⟩
      · simpa using hpnot
    unfold async_update_data
    rw [if_pos hlen]
    show (if ((!l.isEmpty) = true ∧ ((plan_ids products).any
        (fun f => !((plan_ids l).contains f))) = true) then
        (device_plan_ids.filter (fun x => !((plan_ids products).contains x)),
          (none : Option (List TelenetProduct)))
      else
        (device_plan_ids.filter (fun x => !((plan_ids products).contains x)),
          some products)).2 = none
    rw [if_pos hcond]
  · rfl

/-- Witness for C4 amended: previous device records for plans A and B,
previous in-memory products for A and B, fetched products for A and C.
B is flagged for removal and, C being new, the cycle returns no data; the
empty-list case is checked as well. -/
theorem C4_amended_change_detection_witness :
    "B" ∈ (async_update_data
        [{ product_plan_identifier := "A" }, { product_plan_identifier := "C" }]
        ["A", "B"]
        (some [{ product_plan_identifier := "A" },
               { product_plan_identifier := "B" }])).1 ∧
    (async_update_data
        [{ product_plan_identifier := "A" }, { product_plan_identifier := "C" }]
        ["A", "B"]
        (some [{ product_plan_identifier := "A" },
               { product_plan_identifier := "B" }])).2 = none ∧
    async_update_data [] ["A", "B"]
        (some [{ product_plan_identifier := "A" }]) = ([], some []) := by
  refine ⟨?_, ?_, ?_⟩
  · exact (C4_amended_change_detection _ _ _ "B").1 (by simp)
      (by simp) (by simp [plan_ids])
  · exact (C4_amended_change_detection _ _ _ "B").2.1 _ rfl (by simp)
      ⟨{ product_plan_identifier := "C" }, by simp, by simp [plan_ids]⟩
  · exact (C4_amended_change_detection [] ["A", "B"]
      (some [{ product_plan_identifier := "A" }]) "B").2.2

/-- C9 counterexample: with two elementary-characteristics entries keyed
`"internet_usage_limit"` (values 5 and 7), the code stops at the first
(`break`) and adds `5 * MEGA`, while the claim's "summed value of
entries" reading would add `12 * MEGA`. -/
theorem C9_counterexample_first_not_summed :
    buildv1_total_volume 0 0 none
        (some [("internet_usage_limit", 5), ("internet_usage_limit", 7)])
      = 5242880 ∧
    spec_summed_total_volume 0 0 none
        (some [("internet_usage_limit", 5), ("internet_usage_limit", 7)])
      = 12582912 ∧
    buildv1_total_volume 0 0 none
        (some [("internet_usage_limit", 5), ("internet_usage_limit", 7)])
      ≠ spec_summed_total_volume 0 0 none
        (some [("internet_usage_limit", 5), ("internet_usage_limit", 7)]) := by
  refine ⟨by decide, by decide, by decide⟩

/-- C9 amended: the legacy total volume is the extended volume plus, in
priority order, the service-category-limit MB value times MEGA when that
field is a mapping; otherwise, when the elementary-characteristics list
exists, the value of its first entry keyed `"internet_usage_limit"` times
MEGA (nothing when no entry matches); otherwise the included volume. -/
theorem C9_amended_first_match_priority :
    ∀ (ev iv v : Int) (elems pre post : List (String × Int))
      (e : String × Int),
      (buildv1_total_volume ev iv (some v)
        (some elems) = ev + v * MEGA) ∧
      (elems = pre ++ e :: post → e.1 = "internet_usage_limit" →
        (∀ x ∈ pre, x.1 ≠ "internet_usage_limit") →
        buildv1_total_volume ev iv none (some elems) = ev + e.2 * MEGA) ∧
      ((∀ x ∈ elems, x.1 ≠ "internet_usage_limit") →
        buildv1_total_volume ev iv none (some elems) = ev) ∧
      (buildv1_total_volume ev iv none none = ev + iv) := by
  intro ev iv v elems pre post e
  refine ⟨rfl, ?_, ?_, rfl⟩
  · intro helems hkey hpre
    subst helems
    have hfind : (pre ++ e :: post).find?
        (fun x => x.1 = "internet_usage_limit") = some e := by
      rw [List.find?_append]
      have hpre0 : pre.find? (fun x => x.1 = "internet_usage_limit")
          = none :=
        List.find?_eq_none.mpr (fun x hx => by simp [hpre x hx])
      rw [hpre0]
      simp [List.find?_cons, hkey]
    simp [buildv1_total_volume, hfind]
  · intro hall
    have hfind : elems.find? (fun x => x.1 = "internet_usage_limit")
        = none :=
      List.find?_eq_none.mpr (fun x hx => by simp [hall x hx])
    simp [buildv1_total_volume, hfind]

/-- Witness for C9 amended: the first-match branch applied at the
counterexample's list, plus the mapping and fallback branches. -/
theorem C9_amended_first_match_priority_witness :
    buildv1_total_volume 0 0 none
        (some [("internet_usage_limit", 5), ("internet_usage_limit", 7)])
      = 0 + 5 * MEGA ∧
    buildv1_total_volume 2 3 (some 4) (some []) = 2 + 4 * MEGA ∧
    buildv1_total_volume 2 3 none none = 2 + 3 := by
  refine ⟨?_, ?_, ?_⟩
  · exact (C9_amended_first_match_priority 0 0 0
      [("internet_usage_limit", 5), ("internet_usage_limit", 7)] []
      [("internet_usage_limit", 7)] ("internet_usage_limit", 5)).2.1
      rfl rfl (by simp)
  · exact (C9_amended_first_match_priority 2 3 4 [] [] [] ("", 0)).1
  · exact (C9_amended_first_match_priority 2 3 0 [] [] [] ("", 0)).2.2.2

end Telenet

